import Mathlib

/-!
Verification of `src/ParseConfig.js` (Parse-SDK-JS).

The file shallowly embeds the module: JavaScript values become the inductive
`JSValue`, the `ParseConfig` class becomes a structure, and the module-level
mutable `currentConfig` cache becomes explicit state passed through the two
controller operations.  Promise chains in the source are linear, so each
controller operation is embedded as a pure function from the environment's
responses (REST response, storage read result, storage write result) to the
outcome, the new cache state, and the trace of storage events it performed.

External collaborators that the spec declares out of scope (the `decode`
utility, the HTML `escape` utility, `JSON.parse` / `JSON.stringify`, the
storage path generator) enter as function parameters; concrete modelled
instances are provided for evaluating theorems at concrete inputs.
-/

/-- A JavaScript value, as far as this module manipulates them:
`null`, `undefined`, booleans, (integral) numbers, strings, plain objects
(ordered association lists, unique keys) and arrays. -/
inductive JSValue where
  | null : JSValue
  | undefined : JSValue
  | bool : Bool → JSValue
  | num : Int → JSValue
  | str : String → JSValue
  | obj : List (String × JSValue) → JSValue
  | arr : List JSValue → JSValue
deriving Repr

/-- JavaScript truthiness of a value (`if (v)`).  `null`, `undefined`,
`false`, `0` and the empty string are falsy; objects and arrays are always
truthy. -/
def JSValue.truthy : JSValue → Bool
  | .null => false
  | .undefined => false
  | .bool b => b
  | .num n => n != 0
  | .str s => s != ""
  | .obj _ => true
  | .arr _ => true

/-- JavaScript loose equality to null (`v == null`): true exactly for `null`
and `undefined`. -/
def JSValue.isNullish : JSValue → Bool
  | .null => true
  | .undefined => true
  | _ => false

/-- `typeof v === 'object'`: true for `null`, objects and arrays. -/
def JSValue.typeofObject : JSValue → Bool
  | .null => true
  | .obj _ => true
  | .arr _ => true
  | _ => false

/-- Property read `v[k]`: association-list lookup on objects, `undefined` on
anything else (the module only reads properties of decoded objects). -/
def JSValue.getProp : JSValue → String → JSValue
  | .obj fields, k =>
    match fields.find? (fun p => p.1 == k) with
    | some p => p.2
    | none => .undefined
  | _, _ => .undefined

/-- `v.toString()` for the values this module can hold in an attribute
(never called on `null`/`undefined`: the source guards with `val != null`). -/
def JSValue.jsToString : JSValue → String
  | .null => "null"
  | .undefined => "undefined"
  | .bool b => if b then "true" else "false"
  | .num n => toString n
  | .str s => s
  | .obj _ => "[object Object]"
  | .arr _ => "[object Array]"

/-- Lookup in a string-valued association list (the `_escapedAttributes`
cache); `none` models reading an absent property (`undefined`). -/
def lookupStr (l : List (String × String)) (k : String) : Option String :=
  match l.find? (fun p => p.1 == k) with
  | some p => some p.2
  | none => none

/-- Truthiness of `_escapedAttributes[attr]`: a string read from the cache is
truthy exactly when it is present and non-empty. -/
def strTruthy : Option String → Bool
  | some s => s != ""
  | none => false

/-- Property write `l[k] = v` on an association list: overwrite the existing
binding or append a new one. -/
def setKey (l : List (String × String)) (k : String) (v : String) :
    List (String × String) :=
  match l with
  | [] => [(k, v)]
  | p :: rest => if p.1 == k then (k, v) :: rest else p :: setKey rest k v

/-- The `ParseConfig` class: `attributes` holds the decoded configuration
object, `_escapedAttributes` the lazily computed HTML-escaped strings. -/
structure ParseConfig where
  attributes : JSValue
  _escapedAttributes : List (String × String)
deriving Repr

/-- `new ParseConfig()`: both fields start empty. -/
def ParseConfig.new : ParseConfig :=
  { attributes := .obj [], _escapedAttributes := [] }

/-- `ParseConfig.prototype.get(attr)`: `return this.attributes[attr]`.
A pure read, embedded as a function that does not touch the instance. -/
def ParseConfig.get (c : ParseConfig) (attr : String) : JSValue :=
  c.attributes.getProp attr

/-- `ParseConfig.prototype.escape(attr)`.  The imported HTML-escaping utility
is the parameter `esc` (an out-of-scope collaborator).  Returns the string
produced, the updated instance, and whether `esc` was invoked on this call
(`true` exactly when the source line `escaped = escape(val.toString())`
runs). -/
def ParseConfig.escape (esc : String → String) (c : ParseConfig)
    (attr : String) : String × ParseConfig × Bool :=
  let html := lookupStr c._escapedAttributes attr
  if strTruthy html then
    (html.getD "", c, false)
  else
    let val := c.attributes.getProp attr
    let (escaped, invoked) :=
      if val.isNullish then ("", false) else (esc val.jsToString, true)
    (escaped,
     { c with _escapedAttributes := setKey c._escapedAttributes attr escaped },
     invoked)

/-- The key under which the configuration snapshot is persisted
(`CURRENT_CONFIG_KEY` in the source). -/
def CURRENT_CONFIG_KEY : String := "currentConfig"

/-- Observable interactions with the collaborators, in the order the
controller performs them: the REST request, a synchronous storage read, an
asynchronous storage read, an asynchronous storage write. -/
inductive Event where
  | request : String → String → JSValue → JSValue → Event
  | getItem : String → Event
  | getItemAsync : String → Event
  | setItemAsync : String → String → Event
deriving Repr

/-- Result shape of `DefaultController.current`: a config returned
synchronously, or a promise that resolves with a config (async storage). -/
inductive CurrentResult where
  | sync : ParseConfig → CurrentResult
  | promise : ParseConfig → CurrentResult
deriving Repr

/-- Modelled from the spec: the error-type definitions (`ParseError`) are an
out-of-scope collaborator; only the `INVALID_JSON` error kind is needed
here. -/
inductive ParseErrorCode where
  | INVALID_JSON : ParseErrorCode
deriving Repr

/-- A value a promise returned by `DefaultController.get` can reject with:
the `ParseError` it constructs itself, or (passed through unchanged) the
value the storage write rejected with.  The constructor tag is just the
embedding's sum; the source rejects with the raw value in both cases. -/
inductive RejectionValue where
  | parseError : ParseErrorCode → String → RejectionValue
  | storageError : JSValue → RejectionValue
deriving Repr

/-- `decodePayload(data)`.  `JSON.parse` is the parameter `parse` (`none`
models a thrown exception), `decode` is the parameter `dec`; both are
out-of-scope collaborators.  The JS function returns `null` when parsing
throws, `decode(json)` when the parse result is a truthy value of type
`'object'`, and falls through (returning `undefined`) otherwise. -/
def decodePayload (dec : JSValue → JSValue) (parse : String → Option JSValue)
    (data : String) : JSValue :=
  match parse data with
  | none => .null
  | some json =>
    if json.truthy && json.typeofObject then dec json else .undefined

/-- Shared body of the synchronous branch and the async callback of
`DefaultController.current` (the source repeats it verbatim): starting from
`config = new ParseConfig()`, if the read `configData` is truthy, decode it;
if the decoded attributes are truthy, install them on `config` and set the
module cache to `config`.  Returns the config handed back and the new value
of the module cache (`none` = cache left unset). -/
def currentHydrate (dec : JSValue → JSValue) (parse : String → Option JSValue)
    (configData : Option String) : ParseConfig × Option ParseConfig :=
  match configData with
  | some data =>
    if data == "" then (ParseConfig.new, none)
    else
      let attributes := decodePayload dec parse data
      if attributes.truthy then
        let config : ParseConfig :=
          { attributes := attributes, _escapedAttributes := [] }
        (config, some config)
      else (ParseConfig.new, none)
  | none => (ParseConfig.new, none)

/-- `DefaultController.current()`.  `genPath` is `Storage.generatePath`,
`storageAsync` is `Storage.async()`, `stored` is the snapshot the storage
backend holds under the generated path (`none` = no item).  Input
`cache` / output second component is the module-level `currentConfig`
variable; the third component is the trace of storage events performed. -/
def DefaultController.current (dec : JSValue → JSValue)
    (parse : String → Option JSValue) (genPath : String → String)
    (storageAsync : Bool) (stored : Option String)
    (cache : Option ParseConfig) :
    CurrentResult × Option ParseConfig × List Event :=
  match cache with
  | some c => (.sync c, some c, [])
  | none =>
    let storagePath := genPath CURRENT_CONFIG_KEY
    if !storageAsync then
      let (config, upd) := currentHydrate dec parse stored
      (.sync config, upd, [Event.getItem storagePath])
    else
      let (config, upd) := currentHydrate dec parse stored
      (.promise config, upd, [Event.getItemAsync storagePath])

/-- `DefaultController.get()`.  `stringify` is `JSON.stringify`, `dec` is
`decode`, `genPath` is `Storage.generatePath` (out-of-scope collaborators);
`response` is the value the REST promise resolved with and `writeResult` the
outcome of `Storage.setItemAsync` (`Except.error e` = rejection with `e`).
Returns the settled value of the returned promise (`Except.error` =
rejection), the new `currentConfig` cache, and the event trace.  Note the
promise resolves with the new config only on the `.then` of a completed
storage write: with `writeResult = .error e` the result is a rejection even
though the cache was already replaced. -/
def DefaultController.get (dec : JSValue → JSValue)
    (stringify : JSValue → String) (genPath : String → String)
    (response : JSValue) (writeResult : Except JSValue Unit)
    (cache : Option ParseConfig) :
    Except RejectionValue ParseConfig × Option ParseConfig × List Event :=
  let requestEv := Event.request "GET" "config" (.obj []) (.obj [])
  if !response.truthy || !(response.getProp "params").truthy then
    (.error (.parseError .INVALID_JSON "Config JSON response invalid."),
     cache, [requestEv])
  else
    let params := response.getProp "params"
    let fields := match params with | .obj fs => fs | _ => []
    let config : ParseConfig :=
      { attributes := .obj (fields.map (fun p => (p.1, dec p.2))),
        _escapedAttributes := [] }
    let writeEv :=
      Event.setItemAsync (genPath CURRENT_CONFIG_KEY) (stringify params)
    match writeResult with
    | .ok _ => (.ok config, some config, [requestEv, writeEv])
    | .error e => (.error (.storageError e), some config, [requestEv, writeEv])

/-! ### Concrete models of the out-of-scope collaborators

These are not part of the verified module; they are faithful executable
models used to instantiate the parametric theorems at concrete inputs. -/

/-- The double-quote character. -/
def quoteChar : Char := Char.ofNat 34

/-- The apostrophe character. -/
def aposChar : Char := Char.ofNat 39

/-- The opening curly brace character. -/
def lbraceChar : Char := Char.ofNat 123

/-- The closing curly brace character. -/
def rbraceChar : Char := Char.ofNat 125

/-- Modelled from the spec: the HTML-escaping utility (an out-of-scope
collaborator) replaces each HTML special character by its entity. -/
def escapeHtmlChar (c : Char) : String :=
  if c = '&' then "&amp;"
  else if c = '<' then "&lt;"
  else if c = '>' then "&gt;"
  else if c = '/' then "&#x2F;"
  else if c = aposChar then "&#x27;"
  else if c = quoteChar then "&quot;"
  else String.singleton c

/-- Modelled from the spec: HTML-escapes a string character by character.
In particular it maps the empty string to the empty string. -/
def htmlEscape (s : String) : String :=
  String.join (s.data.map escapeHtmlChar)

/-- Modelled from the spec: `decode` converts raw JSON-compatible values into
richer in-memory types; on plain JSON payloads (no special type markers,
which is all the concrete instantiations use) it is the structural
identity. -/
def decodeModel : JSValue → JSValue := fun v => v

/-- Modelled from the spec: `Storage.generatePath` namespaces a logical key
for the storage backend. -/
def generatePathModel (k : String) : String := "Parse/" ++ k

mutual
/-- Modelled from the spec: `JSON.stringify` on the raw params object
(string escaping omitted; the concrete instantiations contain no special
characters). -/
def jsonStringify : JSValue → String
  | .null => "null"
  | .undefined => "null"
  | .bool b => if b then "true" else "false"
  | .num n => toString n
  | .str s => String.singleton quoteChar ++ s ++ String.singleton quoteChar
  | .obj fields => "\x7b" ++ stringifyFields fields ++ "\x7d"
  | .arr elems => "[" ++ stringifyElems elems ++ "]"

/-- Comma-separated `"key":value` members of an object. -/
def stringifyFields : List (String × JSValue) → String
  | [] => ""
  | [(k, v)] =>
    String.singleton quoteChar ++ k ++ String.singleton quoteChar ++ ":" ++
      jsonStringify v
  | (k, v) :: rest =>
    String.singleton quoteChar ++ k ++ String.singleton quoteChar ++ ":" ++
      jsonStringify v ++ "," ++ stringifyFields rest

/-- Comma-separated elements of an array. -/
def stringifyElems : List JSValue → String
  | [] => ""
  | [v] => jsonStringify v
  | v :: rest => jsonStringify v ++ "," ++ stringifyElems rest
end

/-- Skips blanks (the only whitespace the concrete snapshots use). -/
def skipWs : List Char → List Char
  | c :: rest => if c = ' ' then skipWs rest else c :: rest
  | [] => []

/-- Reads a run of decimal digits as a natural number; fails on no digit. -/
def readDigits (cs : List Char) : Option (Nat × List Char) :=
  match cs.span (fun c => c.isDigit) with
  | ([], _) => none
  | (ds, rest) =>
    some (ds.foldl (fun acc c => acc * 10 + (c.toNat - 48)) 0, rest)

/-- Reads a double-quoted string literal (no escape sequences; the concrete
snapshots contain none). -/
def readString (cs : List Char) : Option (String × List Char) :=
  match cs with
  | c :: rest =>
    if c = quoteChar then
      match rest.span (fun d => d ≠ quoteChar) with
      | (body, q :: after) =>
        if q = quoteChar then some (String.mk body, after) else none
      | (_, []) => none
    else none
  | [] => none

mutual
/-- Modelled from the spec: `JSON.parse` (an out-of-scope platform builtin);
fueled recursive-descent parser, `none` models a thrown `SyntaxError`. -/
def parseVal : Nat → List Char → Option (JSValue × List Char)
  | 0, _ => none
  | fuel + 1, cs =>
    match skipWs cs with
    | 't' :: 'r' :: 'u' :: 'e' :: rest => some (.bool true, rest)
    | 'f' :: 'a' :: 'l' :: 's' :: 'e' :: rest => some (.bool false, rest)
    | 'n' :: 'u' :: 'l' :: 'l' :: rest => some (.null, rest)
    | '-' :: rest =>
      match readDigits rest with
      | some (n, rest2) => some (.num (-(n : Int)), rest2)
      | none => none
    | c :: rest =>
      if c.isDigit then
        match readDigits (c :: rest) with
        | some (n, rest2) => some (.num (n : Int), rest2)
        | none => none
      else if c = quoteChar then
        match readString (c :: rest) with
        | some (s, rest2) => some (.str s, rest2)
        | none => none
      else if c = lbraceChar then
        match skipWs rest with
        | d :: rest2 =>
          if d = rbraceChar then some (.obj [], rest2)
          else parseMembers fuel (d :: rest2) []
        | [] => none
      else if c = '[' then
        match skipWs rest with
        | ']' :: rest2 => some (.arr [], rest2)
        | rest2 => parseItems fuel rest2 []
      else none
    | [] => none

/-- Parses the members of an object after its opening brace. -/
def parseMembers (fuel : Nat) (cs : List Char)
    (acc : List (String × JSValue)) : Option (JSValue × List Char) :=
  match fuel with
  | 0 => none
  | fuel + 1 =>
    match readString (skipWs cs) with
    | some (k, rest) =>
      match skipWs rest with
      | ':' :: rest2 =>
        match parseVal fuel rest2 with
        | some (v, rest3) =>
          match skipWs rest3 with
          | ',' :: rest4 => parseMembers fuel rest4 (acc ++ [(k, v)])
          | d :: rest4 =>
            if d = rbraceChar then some (.obj (acc ++ [(k, v)]), rest4)
            else none
          | [] => none
        | none => none
      | _ => none
    | none => none

/-- Parses the elements of an array after its opening bracket. -/
def parseItems (fuel : Nat) (cs : List Char) (acc : List JSValue) :
    Option (JSValue × List Char) :=
  match fuel with
  | 0 => none
  | fuel + 1 =>
    match parseVal fuel cs with
    | some (v, rest) =>
      match skipWs rest with
      | ',' :: rest2 => parseItems fuel rest2 (acc ++ [v])
      | ']' :: rest2 => some (.arr (acc ++ [v]), rest2)
      | _ => none
    | none => none
end

/-- Modelled from the spec: `JSON.parse` on a whole string; succeeds only
when the parsed value consumes the entire input. -/
def jsonParse (s : String) : Option JSValue :=
  match parseVal (s.length + 1) s.data with
  | some (v, rest) => if skipWs rest = [] then some v else none
  | none => none

/-! ### Helper lemmas -/

/-- A property read can only produce an object when the read value is itself
an object, hence truthy. -/
theorem truthy_of_getProp_obj {v : JSValue} {k : String}
    {fs : List (String × JSValue)} (h : v.getProp k = .obj fs) :
    v.truthy = true := by
  cases v <;> first | rfl | simp [JSValue.getProp] at h

/-- A property read can only produce an object when the read value is itself
an object. -/
theorem obj_of_getProp_obj {v : JSValue} {k : String}
    {fs : List (String × JSValue)} (h : v.getProp k = .obj fs) :
    ∃ gs, v = .obj gs := by
  cases v <;> first | exact ⟨_, rfl⟩ | simp [JSValue.getProp] at h

/-- Writing a key into the escaped-attributes cache makes the subsequent
lookup of that key return the written value. -/
theorem lookupStr_setKey (l : List (String × String)) (k v : String) :
    lookupStr (setKey l k v) k = some v := by
  induction l with
  | nil => simp [setKey, lookupStr]
  | cons p rest ih =>
    by_cases h : p.1 = k
    · simp [setKey, lookupStr, h]
    · simpa [setKey, lookupStr, h] using ih

/-- `setKey` never touches the other field of the instance, and lookup of the
written key after `setKey` is the written value (wrapper for rewriting). -/
theorem strTruthy_some (s : String) : strTruthy (some s) = (s != "") := rfl

/-! ### C1 -/

/-- **C1**: when the backend response carries a `params` object, `get()`
decodes each field of `params` individually (`dec` applied per field, never
to the whole object), constructs a new `ParseConfig` holding exactly those
per-field decoded values, replaces the module-wide cache with it, writes
`JSON.stringify` of the raw (pre-decode) params under the path generated
from the fixed key `"currentConfig"`, and resolves with the new config; the
second conjunct records that the promise resolves only after the storage
write completes: if the write does not complete (rejects), no config is ever
delivered. -/
theorem get_decodes_per_field_and_persists
    (dec : JSValue → JSValue) (stringify : JSValue → String)
    (genPath : String → String) (response : JSValue)
    (fields : List (String × JSValue)) (cache : Option ParseConfig)
    (hp : response.getProp "params" = .obj fields) :
    (DefaultController.get dec stringify genPath response (.ok ()) cache =
      (.ok { attributes := .obj (fields.map (fun p => (p.1, dec p.2))),
             _escapedAttributes := [] },
       some { attributes := .obj (fields.map (fun p => (p.1, dec p.2))),
              _escapedAttributes := [] },
       [Event.request "GET" "config" (.obj []) (.obj []),
        Event.setItemAsync (genPath CURRENT_CONFIG_KEY)
          (stringify (.obj fields))])) ∧
    (∀ (e : JSValue) (c : ParseConfig),
      (DefaultController.get dec stringify genPath response (.error e)
        cache).1 ≠ .ok c) := by
  obtain ⟨gs, rfl⟩ := obj_of_getProp_obj hp
  constructor
  · simp [DefaultController.get, hp, JSValue.truthy]
  · intro e c
    simp [DefaultController.get, hp, JSValue.truthy]

/-- **C1** witness: concrete run with response
`{ params: { a: 1, b: "x" } }`, the identity decode model, the JSON
stringify model and the path model, starting from an empty cache. -/
theorem get_decodes_per_field_and_persists_witness :
    (DefaultController.get decodeModel jsonStringify generatePathModel
      (.obj [("params", .obj [("a", .num 1), ("b", .str "x")])]) (.ok ())
      none =
      (.ok { attributes := .obj [("a", JSValue.num 1), ("b", JSValue.str "x")],
             _escapedAttributes := [] },
       some { attributes :=
                .obj [("a", JSValue.num 1), ("b", JSValue.str "x")],
              _escapedAttributes := [] },
       [Event.request "GET" "config" (.obj []) (.obj []),
        Event.setItemAsync (generatePathModel CURRENT_CONFIG_KEY)
          (jsonStringify (.obj [("a", .num 1), ("b", .str "x")]))])) ∧
    (∀ (e : JSValue) (c : ParseConfig),
      (DefaultController.get decodeModel jsonStringify generatePathModel
        (.obj [("params", .obj [("a", .num 1), ("b", .str "x")])]) (.error e)
        none).1 ≠ .ok c) :=
  get_decodes_per_field_and_persists decodeModel jsonStringify
    generatePathModel _ [("a", .num 1), ("b", .str "x")] none rfl

/-! ### C2 -/

/-- **C2**: when the REST response is absent (`null`/`undefined`, i.e.
falsy) or carries no `params` field (the read yields `undefined`), `get()`
rejects with the `ParseError` of kind `INVALID_JSON` and message
`'Config JSON response invalid.'`, leaves the module-wide cache exactly as
it was, and performs no storage write (the trace holds only the REST
request), so a subsequent `current()` observes the same cache value as
before the call. -/
theorem get_missing_params_rejects_invalid_json
    (dec : JSValue → JSValue) (stringify : JSValue → String)
    (genPath : String → String) (response : JSValue)
    (writeResult : Except JSValue Unit) (cache : Option ParseConfig)
    (hp : response.truthy = false ∨ response.getProp "params" = .undefined) :
    DefaultController.get dec stringify genPath response writeResult cache =
      (.error (.parseError .INVALID_JSON "Config JSON response invalid."),
       cache,
       [Event.request "GET" "config" (.obj []) (.obj [])]) := by
  rcases hp with hp | hp
  · simp [DefaultController.get, hp]
  · simp [DefaultController.get, hp, JSValue.truthy]

/-- **C2** witness: concrete run against a response object with no `params`
field, starting from a populated cache; the cache survives unchanged. -/
theorem get_missing_params_rejects_invalid_json_witness :
    DefaultController.get decodeModel jsonStringify generatePathModel
      (.obj [("result", .bool true)]) (.ok ())
      (some { attributes := .obj [("a", .num 1)], _escapedAttributes := [] }) =
      (.error (.parseError .INVALID_JSON "Config JSON response invalid."),
       some { attributes := .obj [("a", JSValue.num 1)],
              _escapedAttributes := [] },
       [Event.request "GET" "config" (.obj []) (.obj [])]) :=
  get_missing_params_rejects_invalid_json decodeModel jsonStringify
    generatePathModel _ (.ok ())
    (some { attributes := .obj [("a", .num 1)], _escapedAttributes := [] })
    (Or.inr rfl)

/-! ### C3 -/

/-- **C3**: when the response carries a `params` object but the storage
write rejects with `e`, the promise returned by `get()` rejects with that
storage failure — the freshly fetched config is never delivered — while the
module-wide cache has nevertheless already been replaced by the freshly
fetched config (whose attributes are the per-field decoded params). -/
theorem get_storage_failure_rejects_with_cache_updated
    (dec : JSValue → JSValue) (stringify : JSValue → String)
    (genPath : String → String) (response : JSValue)
    (fields : List (String × JSValue)) (cache : Option ParseConfig)
    (e : JSValue)
    (hp : response.getProp "params" = .obj fields) :
    DefaultController.get dec stringify genPath response (.error e) cache =
      (.error (.storageError e),
       some { attributes := .obj (fields.map (fun p => (p.1, dec p.2))),
              _escapedAttributes := [] },
       [Event.request "GET" "config" (.obj []) (.obj []),
        Event.setItemAsync (genPath CURRENT_CONFIG_KEY)
          (stringify (.obj fields))]) := by
  obtain ⟨gs, rfl⟩ := obj_of_getProp_obj hp
  simp [DefaultController.get, hp, JSValue.truthy]

/-- **C3** witness: concrete run with response `{ params: { a: 1 } }` and a
storage write that rejects with the string `"quota"`, starting from an empty
cache: the result is a rejection with the storage failure while the cache
now holds the new config. -/
theorem get_storage_failure_rejects_with_cache_updated_witness :
    DefaultController.get decodeModel jsonStringify generatePathModel
      (.obj [("params", .obj [("a", .num 1)])]) (.error (.str "quota"))
      none =
      (.error (.storageError (.str "quota")),
       some { attributes := .obj [("a", JSValue.num 1)],
              _escapedAttributes := [] },
       [Event.request "GET" "config" (.obj []) (.obj []),
        Event.setItemAsync (generatePathModel CURRENT_CONFIG_KEY)
          (jsonStringify (.obj [("a", .num 1)]))]) :=
  get_storage_failure_rejects_with_cache_updated decodeModel jsonStringify
    generatePathModel _ [("a", .num 1)] none (.str "quota") rfl

/-- `escape` when the cached escaped value is truthy: the cached string is
returned, the instance is untouched, the escaping computation not invoked. -/
theorem escape_cache_hit (esc : String → String) (c : ParseConfig)
    (attr : String)
    (h : strTruthy (lookupStr c._escapedAttributes attr) = true) :
    ParseConfig.escape esc c attr =
      ((lookupStr c._escapedAttributes attr).getD "", c, false) := by
  simp [ParseConfig.escape, h]

/-- `escape` on a cache miss with a nullish attribute value: the empty
string is returned and cached, the escaping computation not invoked. -/
theorem escape_cache_miss_nullish (esc : String → String) (c : ParseConfig)
    (attr : String)
    (h : strTruthy (lookupStr c._escapedAttributes attr) = false)
    (hn : (c.attributes.getProp attr).isNullish = true) :
    ParseConfig.escape esc c attr =
      ("", { c with _escapedAttributes := setKey c._escapedAttributes attr "" },
       false) := by
  simp [ParseConfig.escape, h, hn]

/-- `escape` on a cache miss with a non-nullish attribute value: the
escaping computation runs on the string form of the value, and its result
is returned and cached. -/
theorem escape_cache_miss_value (esc : String → String) (c : ParseConfig)
    (attr : String)
    (h : strTruthy (lookupStr c._escapedAttributes attr) = false)
    (hn : (c.attributes.getProp attr).isNullish = false) :
    ParseConfig.escape esc c attr =
      (esc (c.attributes.getProp attr).jsToString,
       { c with _escapedAttributes := setKey c._escapedAttributes attr (esc (c.attributes.getProp attr).jsToString) },
       true) := by
  simp [ParseConfig.escape, h, hn]

/-! ### C4 -/

/-- **C4** (counterexample): the claim "the underlying HTML-escaping
computation is performed only once; the second call returns the cached
result without recomputing" fails on the code.  For the attribute `"a"`
holding the empty string, the escaped value is the empty string; the cache
guard `if (html)` tests truthiness, the cached empty string is falsy, so the
second call runs `escaped = escape(val.toString())` again (invocation flag
`true`). -/
theorem escape_second_call_recomputes_counterexample :
    (ParseConfig.escape htmlEscape
      (ParseConfig.escape htmlEscape
        { attributes := .obj [("a", .str "")], _escapedAttributes := [] }
        "a").2.1 "a").2.2 = true := rfl

/-- **C4** (amended): calling `escape` twice with the same attribute returns
the identical string both times; and whenever that string is non-empty the
second call returns the cached result without invoking the escaping
computation.  (When the escaped value is the empty string, the truthiness
test on the cache misses and the computation runs again — the only change
the counterexample forces.) -/
theorem escape_idempotent_recompute_only_when_empty
    (esc : String → String) (c : ParseConfig) (attr : String) :
    ((ParseConfig.escape esc (ParseConfig.escape esc c attr).2.1 attr).1 =
      (ParseConfig.escape esc c attr).1) ∧
    ((ParseConfig.escape esc c attr).1 ≠ "" →
      (ParseConfig.escape esc (ParseConfig.escape esc c attr).2.1 attr).2.2 =
        false) := by
  cases h1 : strTruthy (lookupStr c._escapedAttributes attr) with
  | true => simp [escape_cache_hit esc c attr h1]
  | false =>
    cases h2 : (c.attributes.getProp attr).isNullish with
    | true =>
      have e1 := escape_cache_miss_nullish esc c attr h1 h2
      have h1' : strTruthy (lookupStr
          (setKey c._escapedAttributes attr "") attr) = false := by
        rw [lookupStr_setKey]; rfl
      have e2 := escape_cache_miss_nullish esc
        { c with _escapedAttributes := setKey c._escapedAttributes attr "" }
        attr h1' h2
      simp [e1, e2]
    | false =>
      have e1 := escape_cache_miss_value esc c attr h1 h2
      by_cases h3 : esc (c.attributes.getProp attr).jsToString = ""
      · have h1' : strTruthy (lookupStr
            (setKey c._escapedAttributes attr
              (esc (c.attributes.getProp attr).jsToString)) attr) = false := by
          rw [lookupStr_setKey, h3]; rfl
        have e2 := escape_cache_miss_value esc
          { c with _escapedAttributes := setKey c._escapedAttributes attr (esc (c.attributes.getProp attr).jsToString) }
          attr h1' h2
        simp only [h3] at e1 e2
        simp [e1, e2]
      · have h1' : strTruthy (lookupStr
            (setKey c._escapedAttributes attr
              (esc (c.attributes.getProp attr).jsToString)) attr) = true := by
          rw [lookupStr_setKey]
          simpa [strTruthy_some] using h3
        have e2 := escape_cache_hit esc
          { c with _escapedAttributes := setKey c._escapedAttributes attr (esc (c.attributes.getProp attr).jsToString) }
          attr h1'
        simp [e1, e2, lookupStr_setKey]

/-- **C4** (amended) witness: concrete instance with attribute `"a"` holding
`"x&y"` under the HTML-escape model; both calls return `"x&amp;y"` and the
second call does not invoke the escaping computation. -/
theorem escape_idempotent_recompute_only_when_empty_witness :
    ((ParseConfig.escape htmlEscape
      (ParseConfig.escape htmlEscape
        { attributes := .obj [("a", .str "x&y")], _escapedAttributes := [] }
        "a").2.1 "a").1 =
      (ParseConfig.escape htmlEscape
        { attributes := .obj [("a", .str "x&y")], _escapedAttributes := [] }
        "a").1) ∧
    ((ParseConfig.escape htmlEscape
        { attributes := .obj [("a", .str "x&y")], _escapedAttributes := [] }
        "a").1 ≠ "" →
      (ParseConfig.escape htmlEscape
        (ParseConfig.escape htmlEscape
          { attributes := .obj [("a", .str "x&y")], _escapedAttributes := [] }
          "a").2.1 "a").2.2 = false) :=
  escape_idempotent_recompute_only_when_empty htmlEscape
    { attributes := .obj [("a", .str "x&y")], _escapedAttributes := [] } "a"

/-! ### C5 -/

/-- **C5**: with a synchronous storage backend and an empty in-memory cache,
whenever the stored snapshot is absent, is malformed JSON (parsing throws),
or parses to a non-object value, `current()` returns an empty config
synchronously (the result is `CurrentResult.sync` of a fresh empty
`ParseConfig`): the decode attempt is wrapped in try/catch inside
`decodePayload`, so no exception escapes and no error is surfaced — the
embedding of the operation is a total function into configs, with no error
outcome at all. -/
theorem current_sync_missing_or_invalid_snapshot_returns_empty
    (dec : JSValue → JSValue) (parse : String → Option JSValue)
    (genPath : String → String) (stored : Option String)
    (hp : stored = none ∨
          (∃ s, stored = some s ∧ parse s = none) ∨
          (∃ s v, stored = some s ∧ parse s = some v ∧
            v.typeofObject = false)) :
    DefaultController.current dec parse genPath false stored none =
      (.sync ParseConfig.new, none,
       [Event.getItem (genPath CURRENT_CONFIG_KEY)]) := by
  rcases hp with rfl | ⟨s, rfl, hs⟩ | ⟨s, v, rfl, hs, hv⟩
  · simp [DefaultController.current, currentHydrate]
  · by_cases h0 : s = ""
    · simp [DefaultController.current, currentHydrate, h0]
    · simp [DefaultController.current, currentHydrate, h0, decodePayload,
        hs, JSValue.truthy]
  · by_cases h0 : s = ""
    · simp [DefaultController.current, currentHydrate, h0]
    · simp [DefaultController.current, currentHydrate, h0, decodePayload,
        hs, hv, JSValue.truthy]

/-- **C5** witness: concrete run with the JSON-parse model on the malformed
snapshot `"\x7boops"` (and the identity decode model). -/
theorem current_sync_missing_or_invalid_snapshot_returns_empty_witness :
    DefaultController.current decodeModel jsonParse generatePathModel false
      (some "\x7boops") none =
      (.sync ParseConfig.new, none,
       [Event.getItem (generatePathModel CURRENT_CONFIG_KEY)]) :=
  current_sync_missing_or_invalid_snapshot_returns_empty decodeModel
    jsonParse generatePathModel (some "\x7boops")
    (Or.inr (Or.inl ⟨"\x7boops", rfl, rfl⟩))

/-! ### C6 -/

/-- **C6**: with a synchronous storage backend holding the valid JSON object
snapshot `\x7b"a":1\x7d` and an empty in-memory cache, `current()` returns
synchronously a config whose attributes are the decoded snapshot — so
`get("a")` is `1` — and installs that same config in the in-memory cache.
(`parse`/`dec` are the out-of-scope `JSON.parse`/`decode` collaborators; the
hypotheses pin their behaviour on this snapshot.) -/
theorem current_sync_valid_snapshot_returns_config
    (dec : JSValue → JSValue) (parse : String → Option JSValue)
    (genPath : String → String)
    (hparse : parse "\x7b\"a\":1\x7d" = some (.obj [("a", .num 1)]))
    (hdec : dec (.obj [("a", .num 1)]) = .obj [("a", .num 1)]) :
    DefaultController.current dec parse genPath false
      (some "\x7b\"a\":1\x7d") none =
      (.sync { attributes := .obj [("a", .num 1)], _escapedAttributes := [] },
       some { attributes := .obj [("a", .num 1)], _escapedAttributes := [] },
       [Event.getItem (genPath CURRENT_CONFIG_KEY)]) ∧
    ParseConfig.get
      { attributes := .obj [("a", .num 1)], _escapedAttributes := [] } "a" =
      .num 1 := by
  constructor
  · simp [DefaultController.current, currentHydrate, decodePayload, hparse,
      hdec, JSValue.truthy, JSValue.typeofObject]
  · rfl

/-- **C6** witness: concrete run with the JSON-parse model and the identity
decode model on the snapshot `\x7b"a":1\x7d`. -/
theorem current_sync_valid_snapshot_returns_config_witness :
    (DefaultController.current decodeModel jsonParse generatePathModel false
      (some "\x7b\"a\":1\x7d") none =
      (.sync { attributes := .obj [("a", .num 1)], _escapedAttributes := [] },
       some { attributes := .obj [("a", .num 1)], _escapedAttributes := [] },
       [Event.getItem (generatePathModel CURRENT_CONFIG_KEY)])) ∧
    ParseConfig.get
      { attributes := .obj [("a", .num 1)], _escapedAttributes := [] } "a" =
      .num 1 :=
  current_sync_valid_snapshot_returns_config decodeModel jsonParse
    generatePathModel rfl rfl

/-! ### C7 -/

/-- **C7**: whenever the module-wide in-memory cache holds a config, the
`current()` operation returns that cached config synchronously
(`CurrentResult.sync`, never a promise) with an empty event trace — storage
is not consulted — regardless of whether the storage backend is
asynchronous and of what it holds. -/
theorem current_memory_cache_hit_synchronous_no_storage
    (dec : JSValue → JSValue) (parse : String → Option JSValue)
    (genPath : String → String) (storageAsync : Bool)
    (stored : Option String) (c : ParseConfig) :
    DefaultController.current dec parse genPath storageAsync stored
      (some c) = (.sync c, some c, []) := rfl

/-! ### C8 -/

/-- **C8**: for every config instance and attribute whose stored value is
`null` or `undefined` — including absent attributes, whose read yields
`undefined` — `escape(attr)` returns the empty string.  The hypothesis
`hcache` restricts to instances whose escaped-value cache holds no truthy
entry for `attr`: every instance the module constructs starts with an empty
cache, and a nullish attribute only ever caches the empty string, so the
restriction is exactly the states the class can reach. -/
theorem escape_nullish_attribute_returns_empty_string
    (esc : String → String) (c : ParseConfig) (attr : String)
    (hval : (c.attributes.getProp attr).isNullish = true)
    (hcache : strTruthy (lookupStr c._escapedAttributes attr) = false) :
    (ParseConfig.escape esc c attr).1 = "" := by
  rw [escape_cache_miss_nullish esc c attr hcache hval]

/-- **C8** witness: a config holding `\x7b a: null \x7d` with an untouched
escape cache; both the `null`-valued attribute `"a"` and the absent
attribute `"b"` escape to the empty string. -/
theorem escape_nullish_attribute_returns_empty_string_witness :
    ((ParseConfig.escape htmlEscape
      { attributes := .obj [("a", .null)], _escapedAttributes := [] }
      "a").1 = "") ∧
    ((ParseConfig.escape htmlEscape
      { attributes := .obj [("a", .null)], _escapedAttributes := [] }
      "b").1 = "") :=
  ⟨escape_nullish_attribute_returns_empty_string htmlEscape
    { attributes := .obj [("a", .null)], _escapedAttributes := [] } "a"
    rfl rfl,
   escape_nullish_attribute_returns_empty_string htmlEscape
    { attributes := .obj [("a", .null)], _escapedAttributes := [] } "b"
    rfl rfl⟩

/-! ### C9 -/

/-- **C9**: for every config and every attribute name not present in its
attributes object, the instance accessor `get(attr)` returns `undefined`;
the source is the single expression `return this.attributes[attr]`, embedded
as a pure function on the instance, so the call has no side effects. -/
theorem get_attr_absent_returns_undefined
    (c : ParseConfig) (attr : String) (fields : List (String × JSValue))
    (hattr : c.attributes = .obj fields)
    (habsent : fields.find? (fun p => p.1 == attr) = none) :
    c.get attr = .undefined := by
  simp [ParseConfig.get, JSValue.getProp, hattr, habsent]

/-- **C9** witness: the attribute `"b"` is absent from a config holding only
`"a"`. -/
theorem get_attr_absent_returns_undefined_witness :
    ParseConfig.get
      { attributes := .obj [("a", .num 1)], _escapedAttributes := [] } "b" =
      .undefined :=
  get_attr_absent_returns_undefined
    { attributes := .obj [("a", .num 1)], _escapedAttributes := [] } "b"
    [("a", .num 1)] rfl rfl

/-! ### C10 -/

/-- **C10**: when `current()` reads a stored snapshot whose decode fails
(`decodePayload` yields a falsy value: parse threw, or the payload is not a
truthy object, or decoding produced a falsy value), the empty config it
returns is not installed in the module-wide cache — the cache remains
`none`, on both the synchronous and the asynchronous storage path — so a
subsequent `current()` call starts from `none` again and re-reads the
stored snapshot from storage (its trace holds the storage read, not a cache
hit's empty trace). -/
theorem current_decode_failure_leaves_cache_unset_rereads
    (dec : JSValue → JSValue) (parse : String → Option JSValue)
    (genPath : String → String) (s : String)
    (hfail : (decodePayload dec parse s).truthy = false) :
    (DefaultController.current dec parse genPath false (some s) none =
      (.sync ParseConfig.new, none,
       [Event.getItem (genPath CURRENT_CONFIG_KEY)])) ∧
    (DefaultController.current dec parse genPath true (some s) none =
      (.promise ParseConfig.new, none,
       [Event.getItemAsync (genPath CURRENT_CONFIG_KEY)])) ∧
    ((DefaultController.current dec parse genPath false (some s)
        (DefaultController.current dec parse genPath false (some s)
          none).2.1).2.2 =
      [Event.getItem (genPath CURRENT_CONFIG_KEY)]) := by
  by_cases h0 : s = ""
  · refine ⟨?_, ?_, ?_⟩ <;>
      simp [DefaultController.current, currentHydrate, h0]
  · refine ⟨?_, ?_, ?_⟩ <;>
      simp [DefaultController.current, currentHydrate, h0, hfail]

/-- **C10** witness: concrete run with the JSON-parse model on the malformed
snapshot `"\x7boops"` and the identity decode model. -/
theorem current_decode_failure_leaves_cache_unset_rereads_witness :
    (DefaultController.current decodeModel jsonParse generatePathModel false
      (some "\x7boops") none =
      (.sync ParseConfig.new, none,
       [Event.getItem (generatePathModel CURRENT_CONFIG_KEY)])) ∧
    (DefaultController.current decodeModel jsonParse generatePathModel true
      (some "\x7boops") none =
      (.promise ParseConfig.new, none,
       [Event.getItemAsync (generatePathModel CURRENT_CONFIG_KEY)])) ∧
    ((DefaultController.current decodeModel jsonParse generatePathModel false
        (some "\x7boops")
        (DefaultController.current decodeModel jsonParse generatePathModel
          false (some "\x7boops") none).2.1).2.2 =
      [Event.getItem (generatePathModel CURRENT_CONFIG_KEY)]) :=
  current_decode_failure_leaves_cache_unset_rereads decodeModel jsonParse
    generatePathModel "\x7boops" rfl
